import Mathlib

/-!
# Verification of the libCacheSim Python binding admission-policy core

Shallow embedding of `src/exception.cpp` (the ordered exception translator)
and `src/export_admissioner.cpp` (the AdmissionPolicy record, the plugin
bridge with its trampolines and construction deleter, the dispatch-surface
bindings, and the built-in factory binding template), together with proofs
about the embedded definitions.

Naming note: some C++ identifiers contain substrings that Lean tooling in
this development reserves, so the embedded names use a capitalised variant
(for example the `admit` slot of the function table is `admitEntry`, and
`pypluginAdmissioner_admit` becomes `pypluginAdmissionerAdmit`).  Every
definition carries a comment pointing at the C++ entity it embeds.
-/

namespace LibCacheSim

/-! ## Error translator (`src/exception.cpp`, `register_exception`) -/

/-- The dynamic type of a raised C++ exception, one constructor per concrete
exception class that can reach the translator.  `otherException` stands for
any other subclass of `std::exception`. -/
inductive CppExcKind where
  | cacheException
  | readerException
  | badAlloc
  | invalidArgument
  | outOfRange
  | domainError
  | overflowError
  | rangeError
  | runtimeError
  | otherException
deriving DecidableEq, Fintype

/-- A raised C++ exception: its dynamic type plus its `what()` message. -/
structure CppExc where
  kind : CppExcKind
  what : String
deriving DecidableEq

/-- The static types of the `catch` clauses of the translator in
`register_exception`, one constructor per clause. -/
inductive CatchType where
  | cacheExc
  | readerExc
  | badAlloc
  | invalidArg
  | outOfRange
  | domainErr
  | overflowErr
  | rangeErr
  | runtimeErr
  | stdExc
deriving DecidableEq, Fintype

/-- C++ catchability: `isA k c` holds when an exception of dynamic type `k`
is caught by a clause of static type `c`.  Encodes the standard-library
hierarchy: `overflow_error` and `range_error` derive `runtime_error`;
`invalid_argument`, `out_of_range` and `domain_error` derive `logic_error`
(which has no clause); everything derives `std::exception`.
`CacheException` and `ReaderException` are declared in `exception.h`, which
is outside `src/`; modelled from the spec as domain-specific exception
classes deriving `std::exception`. -/
def isA : CppExcKind → CatchType → Bool
  | .cacheException, .cacheExc => true
  | .readerException, .readerExc => true
  | .badAlloc, .badAlloc => true
  | .invalidArgument, .invalidArg => true
  | .outOfRange, .outOfRange => true
  | .domainError, .domainErr => true
  | .overflowError, .overflowErr => true
  | .overflowError, .runtimeErr => true
  | .rangeError, .rangeErr => true
  | .rangeError, .runtimeErr => true
  | .runtimeError, .runtimeErr => true
  | _, .stdExc => true
  | _, _ => false

/-- Subclass relation between clause types (reflexive): used to state that
the clause chosen for an exception is at least as specific as every other
clause that matches it. -/
def catchSub : CatchType → CatchType → Bool
  | c, d => if c = d then true else
    match c, d with
    | .overflowErr, .runtimeErr => true
    | .rangeErr, .runtimeErr => true
    | _, .stdExc => true
    | _, _ => false

/-- The kind of Python error object produced by the translator. -/
inductive PyErrKind where
  | cacheExceptionPy
  | readerExceptionPy
  | memoryError
  | valueError
  | indexError
  | overflowErrorPy
  | runtimeErrorPy
  | castError
  | internalError
deriving DecidableEq, Fintype

/-- A Python-visible error: kind plus message. -/
structure PyErr where
  kind : PyErrKind
  msg : String
deriving DecidableEq

/-- The handler body of each `catch` clause in `register_exception`:
which Python error it sets, and how the message is derived from `what()`. -/
def clauseHandler : CatchType → String → PyErr
  | .cacheExc, m => ⟨.cacheExceptionPy, m⟩
  | .readerExc, m => ⟨.readerExceptionPy, m⟩
  | .badAlloc, m => ⟨.memoryError, m⟩
  | .invalidArg, m => ⟨.valueError, m⟩
  | .outOfRange, m => ⟨.indexError, m⟩
  | .domainErr, m => ⟨.valueError, "Domain error: " ++ m⟩
  | .overflowErr, m => ⟨.overflowErrorPy, m⟩
  | .rangeErr, m => ⟨.valueError, "Range error: " ++ m⟩
  | .runtimeErr, m => ⟨.runtimeErrorPy, m⟩
  | .stdExc, m => ⟨.runtimeErrorPy, "C++ exception: " ++ m⟩

/-- The `catch` clauses of the translator, in their source order. -/
def catchOrder : List CatchType :=
  [.cacheExc, .readerExc, .badAlloc, .invalidArg, .outOfRange,
   .domainErr, .overflowErr, .rangeErr, .runtimeErr, .stdExc]

/-- The clause that catches an exception of dynamic type `k`: C++ tries the
clauses in source order and the first whose static type matches wins. -/
def clauseFor (k : CppExcKind) : Option CatchType :=
  catchOrder.find? (fun c => isA k c)

/-- The whole translator: rethrow, match the first applicable clause in
source order, run its handler on the message.  `none` would mean no clause
matched (never happens: every kind is a `std::exception`). -/
def translateExc (e : CppExc) : Option PyErr :=
  (clauseFor e.kind).map (fun c => clauseHandler c e.what)

end LibCacheSim

namespace LibCacheSim

/-- C1: the translator classifies most-specific first in the fixed source
order; every exception kind is mapped to the claimed Python error (with the
claimed message qualifiers), and the clause chosen for an exception is
always at least as specific as, and listed no later than, any other clause
matching it — so a failure matching both a specific kind and a broader kind
listed later is reported as the specific kind (an overflow failure becomes
Overflow Error, never plain Runtime Error). -/
theorem C1_error_translator_ordering :
    (∀ m : String,
      translateExc ⟨.cacheException, m⟩ = some ⟨.cacheExceptionPy, m⟩ ∧
      translateExc ⟨.readerException, m⟩ = some ⟨.readerExceptionPy, m⟩ ∧
      translateExc ⟨.badAlloc, m⟩ = some ⟨.memoryError, m⟩ ∧
      translateExc ⟨.invalidArgument, m⟩ = some ⟨.valueError, m⟩ ∧
      translateExc ⟨.outOfRange, m⟩ = some ⟨.indexError, m⟩ ∧
      translateExc ⟨.domainError, m⟩ = some ⟨.valueError, "Domain error: " ++ m⟩ ∧
      translateExc ⟨.overflowError, m⟩ = some ⟨.overflowErrorPy, m⟩ ∧
      translateExc ⟨.rangeError, m⟩ = some ⟨.valueError, "Range error: " ++ m⟩ ∧
      translateExc ⟨.runtimeError, m⟩ = some ⟨.runtimeErrorPy, m⟩ ∧
      translateExc ⟨.otherException, m⟩ =
        some ⟨.runtimeErrorPy, "C++ exception: " ++ m⟩) ∧
    (∀ k : CppExcKind, (clauseFor k).isSome = true) ∧
    (∀ k : CppExcKind, ∀ c c' : CatchType, isA k c = true →
      clauseFor k = some c' →
        catchSub c' c = true ∧
        catchOrder.indexOf c' ≤ catchOrder.indexOf c) := by
  refine ⟨?_, by decide, by decide⟩
  intro m
  refine ⟨rfl, rfl, rfl, rfl, rfl, rfl, rfl, rfl, rfl, rfl⟩

/-- Witness for C1: instantiates the ordering part at a concrete exception
(`std::overflow_error`), whose chosen clause is the overflow clause, and at
the broader matching clause `catch (const std::runtime_error&)` listed
later, discharging both hypotheses. -/
theorem C1_error_translator_ordering_witness :
    (clauseFor .overflowError).isSome = true ∧
    catchSub .overflowErr .runtimeErr = true ∧
    catchOrder.indexOf CatchType.overflowErr
      ≤ catchOrder.indexOf CatchType.runtimeErr :=
  ⟨C1_error_translator_ordering.2.1 .overflowError,
   (C1_error_translator_ordering.2.2 .overflowError .runtimeErr .overflowErr
      (by decide) (by decide)).1,
   (C1_error_translator_ordering.2.2 .overflowError .runtimeErr .overflowErr
      (by decide) (by decide)).2⟩

/-! ## Plugin bridge and dispatch surface (`src/export_admissioner.cpp`)

The heap is modelled explicitly: admissioner records and plugin wrapper
structures live in association lists keyed by their address, and every
allocation, deallocation and hook invocation is logged in an event trace.
Python callables supplied as hooks are modelled as Lean functions returning
`Except PyErr PyVal` (a hook either returns a Python value or raises). -/

/-- Addresses of heap objects (`admissioner_t *`, wrapper pointers). -/
abbrev Addr := Nat

/-- The opaque `request_t *` handed through the bindings as a `uintptr_t`;
this subsystem never inspects it. -/
abbrev Request := Nat

/-- A Python value as seen by the bridge: `None`, a null `py::object`
(default-constructed, distinct from `None`), a bool, a wrapped
`admissioner_t *` (a bound `Admissioner` instance), or some other object
identified by a tag. -/
inductive PyVal where
  | none
  | nullObj
  | bool (b : Bool)
  | admissionerRef (a : Addr)
  | obj (tag : Nat)
deriving DecidableEq

/-- Observable events of the bridge: heap traffic, invocations of the
caller-supplied hooks, and (never emitted by this code, but part of the
vocabulary the spec talks about) acquisition/release of the external
execution context's exclusive-execution guard. -/
inductive Event where
  | allocRecord (a : Addr)
  | freeRecord (a : Addr)
  | allocWrapper (a : Addr)
  | freeWrapper (a : Addr)
  | callInitHook
  | callAdmitHook
  | callCloneHook
  | callUpdateHook
  | callFreeHook
  | acquireGuard
  | releaseGuard
deriving DecidableEq

/-- A stored `py::function`: either the default-constructed null function
(as found in a freshly `new`-ed wrapper before the hook assignments run) or
a caller-supplied callable. -/
inductive PyFunc (α : Type) where
  | nullFn
  | fn (f : α)

/-- `pypluginAdmissioner_params_t`: the bridge's internal wrapper around the
externally owned state (`data`) plus the four retained hooks and the display
name.  (The `init` hook is used once during construction and not stored.) -/
structure PluginParams where
  data : PyVal
  admitHook : PyFunc (PyVal → Request → Except PyErr PyVal)
  cloneHook : PyFunc (PyVal → Except PyErr PyVal)
  updateHook : PyFunc (PyVal → Request → Nat → Except PyErr PyVal)
  freeHook : PyFunc (PyVal → Except PyErr PyVal)
  admissioner_name : String

/-- The wrapper as produced by `new pypluginAdmissioner_params_t()`: null
`py::object` data, null hooks, empty name. -/
def defaultPluginParams : PluginParams :=
  ⟨.nullObj, .nullFn, .nullFn, .nullFn, .nullFn, ""⟩

/-- A function-table entry of `admissioner_t`.  The only implementations
defined in this translation unit are the plugin trampolines; native
implementations live in the external libCacheSim library. -/
inductive TrampTag where
  | pyplugin
deriving DecidableEq

/-- `admissioner_t`: the AdmissionPolicy record.  The four function-table
slots are nullable function pointers; `params` points at the bridge wrapper
(for plugin policies); `admissioner_name` is a fixed-capacity character
buffer; `init_params` is a nullable owned C string. -/
structure AdmRecord where
  admitEntry : Option TrampTag
  cloneEntry : Option TrampTag
  updateEntry : Option TrampTag
  freeEntry : Option TrampTag
  params : Option Addr
  admissioner_name : List Nat
  init_params : Option Addr
deriving DecidableEq

/-- Fixed capacity of the `admissioner_name` buffer.  Modelled from the
spec: `CACHE_NAME_LEN` is defined in the external libCacheSim headers (not
under `src/`); the spec only requires a fixed positive capacity. -/
def CACHE_NAME_LEN : Nat := 64

/-- The record right after `malloc` + `memset(admissioner, 0, ...)`:
null function pointers, null `params`, zeroed name buffer. -/
def zeroRecord : AdmRecord :=
  ⟨none, none, none, none, none, List.replicate CACHE_NAME_LEN 0, none⟩

/-- Association-list lookup by address (pointer dereference). -/
def lookupA {α : Type} : List (Addr × α) → Addr → Option α
  | [], _ => none
  | (a, v) :: t, b => if a = b then some v else lookupA t b

/-- Remove the first entry with the given address (free / delete). -/
def removeA {α : Type} : List (Addr × α) → Addr → List (Addr × α)
  | [], _ => []
  | (a, v) :: t, b => if a = b then t else (a, v) :: removeA t b

/-- Overwrite the entry at an address (store through a pointer). -/
def setA {α : Type} (l : List (Addr × α)) (a : Addr) (v : α) :
    List (Addr × α) :=
  (a, v) :: removeA l a

/-- The whole mutable state: the two heaps, an allocation counter, and the
event trace.  Operations only ever append to `events`. -/
structure World where
  records : List (Addr × AdmRecord)
  wrappers : List (Addr × PluginParams)
  nextAddr : Addr
  events : List Event

/-- The empty initial state. -/
def emptyWorld : World := ⟨[], [], 0, []⟩

/-- Error used where the C++ would dereference an invalid pointer; such
states are unreachable through the bindings and excluded by hypotheses. -/
def invalidHandleErr : PyErr := ⟨.internalError, "invalid handle"⟩

/-- Error raised by calling a default-constructed (null) `py::function`:
pybind11's argument collection fails before any user code runs. -/
def nullFnCallErr : PyErr := ⟨.internalError, "null py::function call"⟩

/-- `pybind11::cast<bool>` applied to a hook's return value. -/
def castBool : Except PyErr PyVal → Except PyErr Bool
  | .ok (.bool b) => .ok b
  | .ok _ => .error ⟨.castError, "Unable to cast Python instance to bool"⟩
  | .error e => .error e

/-- `pybind11::cast<admissioner_t *>` applied to a hook's return value. -/
def castAdmissioner : Except PyErr PyVal → Except PyErr Addr
  | .ok (.admissionerRef a) => .ok a
  | .ok _ => .error ⟨.castError, "Unable to cast Python instance to admissioner_t"⟩
  | .error e => .error e

/-- `PypluginAdmissionerParamsDeleter::operator()`: if the pointer is
non-null, attempt `free_hook(data)` inside `try { ... } catch (...) {}`
(the result and any raised failure are discarded), then `delete ptr`.
When the stored hook is still the default-constructed null function (the
init-failure path), pybind11's argument collection for the call throws
`cast_error` before any user code runs, and the catch-all swallows it: the
caller's teardown hook is never reached, so no `callFreeHook` event. -/
def PypluginAdmissionerParamsDeleterRun (w : World) (b : Addr) : World :=
  match lookupA w.wrappers b with
  | none => w
  | some pp =>
    match pp.freeHook with
    | .nullFn =>
      { w with wrappers := removeA w.wrappers b,
               events := w.events ++ [.freeWrapper b] }
    | .fn _ =>
      { w with wrappers := removeA w.wrappers b,
               events := w.events ++ [.callFreeHook, .freeWrapper b] }

/-- `create_plugin_admissioner`: malloc + zero the record, install the four
trampolines, `new` the wrapper, call `init()` once; on failure free the
record (the `catch` block), run the wrapper deleter (the `unique_ptr` going
out of scope) and rethrow; on success fill the wrapper with the hooks and
the `init()` result, transfer wrapper ownership to `params`, return the
record.  The `init` hook argument is the outcome of its single call. -/
def create_plugin_admissioner (w : World) (name : String)
    (initHook : Except PyErr PyVal)
    (admitHook : PyVal → Request → Except PyErr PyVal)
    (cloneHook : PyVal → Except PyErr PyVal)
    (updateHook : PyVal → Request → Nat → Except PyErr PyVal)
    (freeHook : PyVal → Except PyErr PyVal) :
    Except PyErr Addr × World :=
  let a := w.nextAddr
  let b := w.nextAddr + 1
  let r1 : AdmRecord :=
    { zeroRecord with admitEntry := some .pyplugin, cloneEntry := some .pyplugin,
                      freeEntry := some .pyplugin, updateEntry := some .pyplugin }
  let w1 : World :=
    { w with records := (a, r1) :: w.records,
             wrappers := (b, defaultPluginParams) :: w.wrappers,
             nextAddr := w.nextAddr + 2,
             events := w.events ++ [.allocRecord a, .allocWrapper b, .callInitHook] }
  match initHook with
  | .error e =>
    -- catch (...) { if (admissioner) free(admissioner); throw; } then the
    -- unique_ptr destructor runs the deleter on the still-default wrapper.
    let w2 : World :=
      { w1 with records := removeA w1.records a,
                events := w1.events ++ [.freeRecord a] }
    (.error e, PypluginAdmissionerParamsDeleterRun w2 b)
  | .ok d =>
    let pp : PluginParams :=
      ⟨d, .fn admitHook, .fn cloneHook, .fn updateHook, .fn freeHook, name⟩
    let r2 : AdmRecord := { r1 with params := some b }
    (.ok a, { w1 with records := setA w1.records a r2,
                      wrappers := setA w1.wrappers b pp })

/-- `pypluginAdmissioner_admit`: recover the wrapper from `params`, call
`admit_hook(data, req)`, cast the result to `bool`. -/
def pypluginAdmissionerAdmit (w : World) (a : Addr) (req : Request) :
    Except PyErr Bool × World :=
  match lookupA w.records a with
  | Option.none => (.error invalidHandleErr, w)
  | some r =>
    match r.params with
    | Option.none => (.error invalidHandleErr, w)
    | some b =>
      match lookupA w.wrappers b with
      | Option.none => (.error invalidHandleErr, w)
      | some pp =>
        match pp.admitHook with
        | .nullFn => (.error nullFnCallErr, w)
        | .fn f =>
          (castBool (f pp.data req),
           { w with events := w.events ++ [.callAdmitHook] })

/-- `pypluginAdmissioner_clone`: recover the wrapper, call
`clone_hook(data)` and cast the returned Python object to an
`admissioner_t *`.  No record and no wrapper are allocated here. -/
def pypluginAdmissionerClone (w : World) (a : Addr) :
    Except PyErr Addr × World :=
  match lookupA w.records a with
  | Option.none => (.error invalidHandleErr, w)
  | some r =>
    match r.params with
    | Option.none => (.error invalidHandleErr, w)
    | some b =>
      match lookupA w.wrappers b with
      | Option.none => (.error invalidHandleErr, w)
      | some pp =>
        match pp.cloneHook with
        | .nullFn => (.error nullFnCallErr, w)
        | .fn f =>
          (castAdmissioner (f pp.data),
           { w with events := w.events ++ [.callCloneHook] })

/-- `pypluginAdmissioner_update`: recover the wrapper, call
`update_hook(data, req, cache_size)`, discard the returned value
(failures propagate). -/
def pypluginAdmissionerUpdate (w : World) (a : Addr) (req : Request)
    (cacheSize : Nat) : Except PyErr Unit × World :=
  match lookupA w.records a with
  | Option.none => (.error invalidHandleErr, w)
  | some r =>
    match r.params with
    | Option.none => (.error invalidHandleErr, w)
    | some b =>
      match lookupA w.wrappers b with
      | Option.none => (.error invalidHandleErr, w)
      | some pp =>
        match pp.updateHook with
        | .nullFn => (.error nullFnCallErr, w)
        | .fn f =>
          ((f pp.data req cacheSize).map (fun _ => ()),
           { w with events := w.events ++ [.callUpdateHook] })

/-- `pypluginAdmissioner_free`: recover the wrapper and call
`free_hook(data)`.  Nothing else: the wrapper is not deleted, the record is
not freed, and a failure raised by the hook propagates. -/
def pypluginAdmissionerFree (w : World) (a : Addr) :
    Except PyErr Unit × World :=
  match lookupA w.records a with
  | Option.none => (.error invalidHandleErr, w)
  | some r =>
    match r.params with
    | Option.none => (.error invalidHandleErr, w)
    | some b =>
      match lookupA w.wrappers b with
      | Option.none => (.error invalidHandleErr, w)
      | some pp =>
        match pp.freeHook with
        | .nullFn => (.error nullFnCallErr, w)
        | .fn f =>
          ((f pp.data).map (fun _ => ()),
           { w with events := w.events ++ [.callFreeHook] })

/-- Resolve a stored `admit` function pointer and call it with the record's
own address (the dispatch lambdas pass `&self`). -/
def callAdmitEntry (t : TrampTag) (w : World) (a : Addr) (req : Request) :
    Except PyErr Bool × World :=
  match t with
  | .pyplugin => pypluginAdmissionerAdmit w a req

/-- Resolve a stored `clone` function pointer. -/
def callCloneEntry (t : TrampTag) (w : World) (a : Addr) :
    Except PyErr Addr × World :=
  match t with
  | .pyplugin => pypluginAdmissionerClone w a

/-- Resolve a stored `update` function pointer. -/
def callUpdateEntry (t : TrampTag) (w : World) (a : Addr) (req : Request)
    (cacheSize : Nat) : Except PyErr Unit × World :=
  match t with
  | .pyplugin => pypluginAdmissionerUpdate w a req cacheSize

/-- Resolve a stored `free` function pointer. -/
def callFreeEntry (t : TrampTag) (w : World) (a : Addr) :
    Except PyErr Unit × World :=
  match t with
  | .pyplugin => pypluginAdmissionerFree w a

/-- The `Admissioner.admit` binding: if the table entry is null, throw
`std::runtime_error("admit function pointer is NULL")`; otherwise call it
as `self.admit(&self, req)`. -/
def AdmissionerAdmitBinding (w : World) (a : Addr) (req : Request) :
    Except PyErr Bool × World :=
  match lookupA w.records a with
  | Option.none => (.error invalidHandleErr, w)
  | some r =>
    match r.admitEntry with
    | Option.none =>
      (.error ⟨.runtimeErrorPy, "admit function pointer is NULL"⟩, w)
    | some t => callAdmitEntry t w a req

/-- The `Admissioner.clone` binding. -/
def AdmissionerCloneBinding (w : World) (a : Addr) :
    Except PyErr Addr × World :=
  match lookupA w.records a with
  | Option.none => (.error invalidHandleErr, w)
  | some r =>
    match r.cloneEntry with
    | Option.none =>
      (.error ⟨.runtimeErrorPy, "clone function pointer is NULL"⟩, w)
    | some t => callCloneEntry t w a

/-- The `Admissioner.update` binding. -/
def AdmissionerUpdateBinding (w : World) (a : Addr) (req : Request)
    (cacheSize : Nat) : Except PyErr Unit × World :=
  match lookupA w.records a with
  | Option.none => (.error invalidHandleErr, w)
  | some r =>
    match r.updateEntry with
    | Option.none =>
      (.error ⟨.runtimeErrorPy, "update function pointer is NULL"⟩, w)
    | some t => callUpdateEntry t w a req cacheSize

/-- The `Admissioner.free` binding. -/
def AdmissionerFreeBinding (w : World) (a : Addr) :
    Except PyErr Unit × World :=
  match lookupA w.records a with
  | Option.none => (.error invalidHandleErr, w)
  | some r =>
    match r.freeEntry with
    | Option.none =>
      (.error ⟨.runtimeErrorPy, "free function pointer is NULL"⟩, w)
    | some t => callFreeEntry t w a

/-- The `py::init<>()` constructor of the `Admissioner` class: a fresh
value-initialised (zeroed) record. -/
def AdmissionerNew (w : World) : Addr × World :=
  (w.nextAddr,
   { w with records := (w.nextAddr, zeroRecord) :: w.records,
            nextAddr := w.nextAddr + 1,
            events := w.events ++ [.allocRecord w.nextAddr] })

/-- C2: if the supplied `init` hook raises, `create_plugin_admissioner`
propagates that failure to the caller, the record heap and the wrapper heap
are exactly as before the call (no AdmissionPolicy record and no internal
wrapper remain allocated: both allocations are matched by their
deallocations in the trace), and the caller's teardown hook is never
invoked (no `callFreeHook` event is added). -/
theorem C2_plugin_init_failure_all_or_nothing (w : World) (name : String)
    (initHook : Except PyErr PyVal)
    (admitH : PyVal → Request → Except PyErr PyVal)
    (cloneH : PyVal → Except PyErr PyVal)
    (updateH : PyVal → Request → Nat → Except PyErr PyVal)
    (freeH : PyVal → Except PyErr PyVal)
    (e : PyErr) (h : initHook = .error e) :
    (create_plugin_admissioner w name initHook admitH cloneH updateH freeH).1
      = .error e ∧
    (create_plugin_admissioner w name initHook admitH cloneH updateH freeH).2.records
      = w.records ∧
    (create_plugin_admissioner w name initHook admitH cloneH updateH freeH).2.wrappers
      = w.wrappers ∧
    (create_plugin_admissioner w name initHook admitH cloneH updateH freeH).2.events
      = w.events ++
        [.allocRecord w.nextAddr, .allocWrapper (w.nextAddr + 1), .callInitHook,
         .freeRecord w.nextAddr, .freeWrapper (w.nextAddr + 1)] ∧
    (create_plugin_admissioner w name initHook admitH cloneH updateH freeH).2.events.count
        Event.callFreeHook
      = w.events.count Event.callFreeHook := by
  subst h
  refine ⟨rfl, ?_, ?_, ?_, ?_⟩ <;>
    simp [create_plugin_admissioner, PypluginAdmissionerParamsDeleterRun,
          lookupA, removeA, defaultPluginParams, List.count_append]

/-- Witness for C2 at a concrete failing `init` hook. -/
theorem C2_plugin_init_failure_all_or_nothing_witness :
    (create_plugin_admissioner emptyWorld "plugin" (.error ⟨.valueError, "init boom"⟩)
        (fun _ _ => .ok (.bool true)) (fun _ => .ok .none)
        (fun _ _ _ => .ok .none) (fun _ => .ok .none)).1
      = .error ⟨.valueError, "init boom"⟩ ∧
    (create_plugin_admissioner emptyWorld "plugin" (.error ⟨.valueError, "init boom"⟩)
        (fun _ _ => .ok (.bool true)) (fun _ => .ok .none)
        (fun _ _ _ => .ok .none) (fun _ => .ok .none)).2.records
      = emptyWorld.records ∧
    (create_plugin_admissioner emptyWorld "plugin" (.error ⟨.valueError, "init boom"⟩)
        (fun _ _ => .ok (.bool true)) (fun _ => .ok .none)
        (fun _ _ _ => .ok .none) (fun _ => .ok .none)).2.wrappers
      = emptyWorld.wrappers ∧
    (create_plugin_admissioner emptyWorld "plugin" (.error ⟨.valueError, "init boom"⟩)
        (fun _ _ => .ok (.bool true)) (fun _ => .ok .none)
        (fun _ _ _ => .ok .none) (fun _ => .ok .none)).2.events
      = emptyWorld.events ++
        [.allocRecord emptyWorld.nextAddr, .allocWrapper (emptyWorld.nextAddr + 1),
         .callInitHook, .freeRecord emptyWorld.nextAddr,
         .freeWrapper (emptyWorld.nextAddr + 1)] ∧
    (create_plugin_admissioner emptyWorld "plugin" (.error ⟨.valueError, "init boom"⟩)
        (fun _ _ => .ok (.bool true)) (fun _ => .ok .none)
        (fun _ _ _ => .ok .none) (fun _ => .ok .none)).2.events.count
        Event.callFreeHook
      = emptyWorld.events.count Event.callFreeHook :=
  C2_plugin_init_failure_all_or_nothing emptyWorld "plugin"
    (.error ⟨.valueError, "init boom"⟩)
    (fun _ _ => .ok (.bool true)) (fun _ => .ok .none)
    (fun _ _ _ => .ok .none) (fun _ => .ok .none)
    ⟨.valueError, "init boom"⟩ rfl

/-- C5: for every AdmissionPolicy record, each of the four dispatch bindings
raises a runtime error naming the missing operation when the corresponding
function-table entry is unset (never a silent no-op: the state is untouched
and the result is an error), and when the entry is set it invokes the
stored function passing the record's own address. -/
theorem C5_dispatch_unset_errors_set_forwards (w : World) (a : Addr)
    (r : AdmRecord) (req : Request) (sz : Nat)
    (h : lookupA w.records a = some r) :
    (r.admitEntry = none →
      AdmissionerAdmitBinding w a req
        = (.error ⟨.runtimeErrorPy, "admit function pointer is NULL"⟩, w)) ∧
    (r.admitEntry = some .pyplugin →
      AdmissionerAdmitBinding w a req = pypluginAdmissionerAdmit w a req) ∧
    (r.cloneEntry = none →
      AdmissionerCloneBinding w a
        = (.error ⟨.runtimeErrorPy, "clone function pointer is NULL"⟩, w)) ∧
    (r.cloneEntry = some .pyplugin →
      AdmissionerCloneBinding w a = pypluginAdmissionerClone w a) ∧
    (r.updateEntry = none →
      AdmissionerUpdateBinding w a req sz
        = (.error ⟨.runtimeErrorPy, "update function pointer is NULL"⟩, w)) ∧
    (r.updateEntry = some .pyplugin →
      AdmissionerUpdateBinding w a req sz
        = pypluginAdmissionerUpdate w a req sz) ∧
    (r.freeEntry = none →
      AdmissionerFreeBinding w a
        = (.error ⟨.runtimeErrorPy, "free function pointer is NULL"⟩, w)) ∧
    (r.freeEntry = some .pyplugin →
      AdmissionerFreeBinding w a = pypluginAdmissionerFree w a) := by
  refine ⟨?_, ?_, ?_, ?_, ?_, ?_, ?_, ?_⟩ <;> intro hEntry <;>
    simp [AdmissionerAdmitBinding, AdmissionerCloneBinding,
          AdmissionerUpdateBinding, AdmissionerFreeBinding,
          callAdmitEntry, callCloneEntry, callUpdateEntry, callFreeEntry,
          h, hEntry]

/-- Witness for C5: a record built by `py::init<>()` (all table entries
null); each dispatch call fails naming the missing operation. -/
theorem C5_dispatch_unset_errors_set_forwards_witness :
    AdmissionerAdmitBinding (AdmissionerNew emptyWorld).2 0 7
      = (.error ⟨.runtimeErrorPy, "admit function pointer is NULL"⟩,
         (AdmissionerNew emptyWorld).2) ∧
    AdmissionerCloneBinding (AdmissionerNew emptyWorld).2 0
      = (.error ⟨.runtimeErrorPy, "clone function pointer is NULL"⟩,
         (AdmissionerNew emptyWorld).2) ∧
    AdmissionerUpdateBinding (AdmissionerNew emptyWorld).2 0 7 1024
      = (.error ⟨.runtimeErrorPy, "update function pointer is NULL"⟩,
         (AdmissionerNew emptyWorld).2) ∧
    AdmissionerFreeBinding (AdmissionerNew emptyWorld).2 0
      = (.error ⟨.runtimeErrorPy, "free function pointer is NULL"⟩,
         (AdmissionerNew emptyWorld).2) := by
  have T := C5_dispatch_unset_errors_set_forwards (AdmissionerNew emptyWorld).2
    0 zeroRecord 7 1024 rfl
  exact ⟨T.1 rfl, T.2.2.1 rfl, T.2.2.2.2.1 rfl, T.2.2.2.2.2.2.1 rfl⟩

/-- A plugin policy (record at address 0, wrapper at address 1) whose
`clone` hook hands back the original `Admissioner` object itself — a
perfectly legal Python hook, e.g. `lambda data: original`. -/
def cloneShareWorld : World :=
  (create_plugin_admissioner emptyWorld "plugin" (.ok (.obj 2))
    (fun _ _ => .ok (.bool true))
    (fun _ => .ok (.admissionerRef 0))
    (fun _ _ _ => .ok .none)
    (fun _ => .ok .none)).2

/-- Counterexample to C3: the clone trampoline performs no allocation at
all.  With a clone hook returning the original record, the "clone" is the
very same record (address 0) with the very same wrapper (`params` = 1):
after the call the heaps still hold exactly one record and one wrapper, and
the returned policy shares the externally owned state with the original. -/
theorem C3_clone_no_allocation_counterexample :
    (pypluginAdmissionerClone cloneShareWorld 0).1 = .ok 0 ∧
    (pypluginAdmissionerClone cloneShareWorld 0).2.records.map Prod.fst = [0] ∧
    (pypluginAdmissionerClone cloneShareWorld 0).2.wrappers.map Prod.fst = [1] ∧
    ((lookupA (pypluginAdmissionerClone cloneShareWorld 0).2.records 0).map
        AdmRecord.params) = some (some 1) := by
  refine ⟨rfl, rfl, rfl, rfl⟩

/-- C3 as amended: the clone trampoline calls the external clone hook with
the externally owned state and returns the hook's result cast to an
AdmissionPolicy record; it allocates no new record and no new wrapper
itself (the heaps are untouched and the only new event is the hook call),
so independence of the clone is entirely the hook's responsibility. -/
theorem C3_clone_delegates_to_hook (w : World) (a : Addr) (r : AdmRecord)
    (b : Addr) (pp : PluginParams) (f : PyVal → Except PyErr PyVal)
    (h1 : lookupA w.records a = some r)
    (h2 : r.params = some b)
    (h3 : lookupA w.wrappers b = some pp)
    (h4 : pp.cloneHook = .fn f) :
    (pypluginAdmissionerClone w a).1 = castAdmissioner (f pp.data) ∧
    (pypluginAdmissionerClone w a).2.records = w.records ∧
    (pypluginAdmissionerClone w a).2.wrappers = w.wrappers ∧
    (pypluginAdmissionerClone w a).2.events = w.events ++ [.callCloneHook] := by
  refine ⟨?_, ?_, ?_, ?_⟩ <;> simp [pypluginAdmissionerClone, h1, h2, h3, h4]

/-- The clone hook of the concrete world used to witness the amended C3. -/
def cloneWitnessHook : PyVal → Except PyErr PyVal :=
  fun _ => .ok (.admissionerRef 0)

/-- The record of the concrete world used to witness the amended C3. -/
def cloneWitnessRecord : AdmRecord :=
  ⟨some .pyplugin, some .pyplugin, some .pyplugin, some .pyplugin, some 1,
   List.replicate CACHE_NAME_LEN 0, none⟩

/-- The wrapper of the concrete world used to witness the amended C3. -/
def cloneWitnessParams : PluginParams :=
  ⟨.obj 2, .fn (fun _ _ => .ok (.bool true)), .fn cloneWitnessHook,
   .fn (fun _ _ _ => .ok .none), .fn (fun _ => .ok .none), "plugin"⟩

/-- The concrete world used to witness the amended C3. -/
def cloneWitnessWorld : World :=
  ⟨[(0, cloneWitnessRecord)], [(1, cloneWitnessParams)], 2, []⟩

/-- Witness for the amended C3 at a concrete plugin policy. -/
theorem C3_clone_delegates_to_hook_witness :
    (pypluginAdmissionerClone cloneWitnessWorld 0).1
      = castAdmissioner (cloneWitnessHook cloneWitnessParams.data) ∧
    (pypluginAdmissionerClone cloneWitnessWorld 0).2.records
      = cloneWitnessWorld.records ∧
    (pypluginAdmissionerClone cloneWitnessWorld 0).2.wrappers
      = cloneWitnessWorld.wrappers ∧
    (pypluginAdmissionerClone cloneWitnessWorld 0).2.events
      = cloneWitnessWorld.events ++ [.callCloneHook] :=
  C3_clone_delegates_to_hook cloneWitnessWorld 0 cloneWitnessRecord 1
    cloneWitnessParams cloneWitnessHook rfl rfl rfl rfl

/-- A plugin policy (record 0, wrapper 1) whose `free` hook raises. -/
def freeRaiseWorld : World :=
  (create_plugin_admissioner emptyWorld "plugin" (.ok (.obj 3))
    (fun _ _ => .ok (.bool true))
    (fun _ => .ok .none)
    (fun _ _ _ => .ok .none)
    (fun _ => .error ⟨.valueError, "teardown boom"⟩)).2

/-- Counterexample to C4: dispatching `free` on a plugin policy whose free
hook raises propagates the failure to the caller (it is not swallowed), and
the internal wrapper is still allocated afterwards (it is not released). -/
theorem C4_free_propagates_counterexample :
    (AdmissionerFreeBinding freeRaiseWorld 0).1
      = .error ⟨.valueError, "teardown boom"⟩ ∧
    (AdmissionerFreeBinding freeRaiseWorld 0).2.wrappers.map Prod.fst = [1] ∧
    (AdmissionerFreeBinding freeRaiseWorld 0).2.records.map Prod.fst = [0] := by
  refine ⟨rfl, rfl, rfl⟩

/-- C4 as amended: dispatching `free` on a plugin-backed AdmissionPolicy
invokes the external free hook exactly once (one `callFreeHook` event) and
does nothing else: the internal wrapper is left allocated, the record is
left allocated, and any failure raised by the hook propagates to the
caller.  Swallow-and-release semantics exist only in the construction-path
deleter (`PypluginAdmissionerParamsDeleterRun`), not in the trampoline. -/
theorem C4_free_invokes_once_no_release (w : World) (a : Addr)
    (r : AdmRecord) (b : Addr) (pp : PluginParams)
    (f : PyVal → Except PyErr PyVal)
    (h1 : lookupA w.records a = some r)
    (h2 : r.freeEntry = some .pyplugin)
    (h3 : r.params = some b)
    (h4 : lookupA w.wrappers b = some pp)
    (h5 : pp.freeHook = .fn f) :
    (AdmissionerFreeBinding w a).1 = (f pp.data).map (fun _ => ()) ∧
    (AdmissionerFreeBinding w a).2.records = w.records ∧
    (AdmissionerFreeBinding w a).2.wrappers = w.wrappers ∧
    (AdmissionerFreeBinding w a).2.events = w.events ++ [.callFreeHook] := by
  refine ⟨?_, ?_, ?_, ?_⟩ <;>
    simp [AdmissionerFreeBinding, callFreeEntry, pypluginAdmissionerFree,
          h1, h2, h3, h4, h5]

/-- The raising free hook of the world used to witness the amended C4. -/
def freeWitnessHook : PyVal → Except PyErr PyVal :=
  fun _ => .error ⟨.valueError, "teardown boom"⟩

/-- The record of the world used to witness the amended C4. -/
def freeWitnessRecord : AdmRecord :=
  ⟨some .pyplugin, some .pyplugin, some .pyplugin, some .pyplugin, some 1,
   List.replicate CACHE_NAME_LEN 0, none⟩

/-- The wrapper of the world used to witness the amended C4. -/
def freeWitnessParams : PluginParams :=
  ⟨.obj 3, .fn (fun _ _ => .ok (.bool true)), .fn (fun _ => .ok .none),
   .fn (fun _ _ _ => .ok .none), .fn freeWitnessHook, "plugin"⟩

/-- The concrete world used to witness the amended C4. -/
def freeWitnessWorld : World :=
  ⟨[(0, freeWitnessRecord)], [(1, freeWitnessParams)], 2, []⟩

/-- Witness for the amended C4 at a concrete plugin policy whose free hook
raises: the failure propagates and nothing is released. -/
theorem C4_free_invokes_once_no_release_witness :
    (AdmissionerFreeBinding freeWitnessWorld 0).1
      = (freeWitnessHook freeWitnessParams.data).map (fun _ => ()) ∧
    (AdmissionerFreeBinding freeWitnessWorld 0).2.records
      = freeWitnessWorld.records ∧
    (AdmissionerFreeBinding freeWitnessWorld 0).2.wrappers
      = freeWitnessWorld.wrappers ∧
    (AdmissionerFreeBinding freeWitnessWorld 0).2.events
      = freeWitnessWorld.events ++ [.callFreeHook] :=
  C4_free_invokes_once_no_release freeWitnessWorld 0 freeWitnessRecord 1
    freeWitnessParams freeWitnessHook rfl rfl rfl rfl rfl

/-- A plugin policy (record 0, wrapper 1) with a well-behaved free hook. -/
def doubleFreeWorld : World :=
  (create_plugin_admissioner emptyWorld "plugin" (.ok (.obj 4))
    (fun _ _ => .ok (.bool true))
    (fun _ => .ok .none)
    (fun _ _ _ => .ok .none)
    (fun _ => .ok .none)).2

/-- Counterexample to C6: a second `free` call through the dispatch surface
is neither rejected nor a no-op — it succeeds and invokes the plugin
teardown hook a second time (two `callFreeHook` events in the trace). -/
theorem C6_double_free_counterexample :
    (AdmissionerFreeBinding doubleFreeWorld 0).1 = .ok () ∧
    (AdmissionerFreeBinding (AdmissionerFreeBinding doubleFreeWorld 0).2 0).1
      = .ok () ∧
    (AdmissionerFreeBinding
        (AdmissionerFreeBinding doubleFreeWorld 0).2 0).2.events.count
      Event.callFreeHook = 2 := by
  refine ⟨rfl, rfl, rfl⟩

/-- C6 as amended: the bindings keep no freed-state flag, so a second
`free` call on a plugin-backed AdmissionPolicy is accepted and invokes the
external teardown hook again; neither call releases the wrapper or the
record (the trampoline never deallocates), so no double release of memory
occurs, but the hook runs once per call. -/
theorem C6_second_free_runs_hook_again (w : World) (a : Addr)
    (r : AdmRecord) (b : Addr) (pp : PluginParams)
    (f : PyVal → Except PyErr PyVal) (v : PyVal)
    (h1 : lookupA w.records a = some r)
    (h2 : r.freeEntry = some .pyplugin)
    (h3 : r.params = some b)
    (h4 : lookupA w.wrappers b = some pp)
    (h5 : pp.freeHook = .fn f)
    (h6 : f pp.data = .ok v) :
    (AdmissionerFreeBinding w a).1 = .ok () ∧
    (AdmissionerFreeBinding (AdmissionerFreeBinding w a).2 a).1 = .ok () ∧
    (AdmissionerFreeBinding (AdmissionerFreeBinding w a).2 a).2.records
      = w.records ∧
    (AdmissionerFreeBinding (AdmissionerFreeBinding w a).2 a).2.wrappers
      = w.wrappers ∧
    (AdmissionerFreeBinding (AdmissionerFreeBinding w a).2 a).2.events
      = w.events ++ [.callFreeHook, .callFreeHook] := by
  refine ⟨?_, ?_, ?_, ?_, ?_⟩ <;>
    simp [AdmissionerFreeBinding, callFreeEntry, pypluginAdmissionerFree,
          h1, h2, h3, h4, h5, h6, Except.map]

/-- The free hook of the world used to witness the amended C6. -/
def doubleFreeWitnessHook : PyVal → Except PyErr PyVal :=
  fun _ => .ok .none

/-- The record of the world used to witness the amended C6. -/
def doubleFreeWitnessRecord : AdmRecord :=
  ⟨some .pyplugin, some .pyplugin, some .pyplugin, some .pyplugin, some 1,
   List.replicate CACHE_NAME_LEN 0, none⟩

/-- The wrapper of the world used to witness the amended C6. -/
def doubleFreeWitnessParams : PluginParams :=
  ⟨.obj 4, .fn (fun _ _ => .ok (.bool true)), .fn (fun _ => .ok .none),
   .fn (fun _ _ _ => .ok .none), .fn doubleFreeWitnessHook, "plugin"⟩

/-- The concrete world used to witness the amended C6. -/
def doubleFreeWitnessWorld : World :=
  ⟨[(0, doubleFreeWitnessRecord)], [(1, doubleFreeWitnessParams)], 2, []⟩

/-- Witness for the amended C6 at a concrete plugin policy. -/
theorem C6_second_free_runs_hook_again_witness :
    (AdmissionerFreeBinding doubleFreeWitnessWorld 0).1 = .ok () ∧
    (AdmissionerFreeBinding
        (AdmissionerFreeBinding doubleFreeWitnessWorld 0).2 0).1 = .ok () ∧
    (AdmissionerFreeBinding
        (AdmissionerFreeBinding doubleFreeWitnessWorld 0).2 0).2.records
      = doubleFreeWitnessWorld.records ∧
    (AdmissionerFreeBinding
        (AdmissionerFreeBinding doubleFreeWitnessWorld 0).2 0).2.wrappers
      = doubleFreeWitnessWorld.wrappers ∧
    (AdmissionerFreeBinding
        (AdmissionerFreeBinding doubleFreeWitnessWorld 0).2 0).2.events
      = doubleFreeWitnessWorld.events ++ [.callFreeHook, .callFreeHook] :=
  C6_second_free_runs_hook_again doubleFreeWitnessWorld 0
    doubleFreeWitnessRecord 1 doubleFreeWitnessParams doubleFreeWitnessHook
    PyVal.none rfl rfl rfl rfl rfl rfl

/-- A plugin policy (record 0, wrapper 1) used to exercise the admit
trampoline's event trace. -/
def guardProbeWorld : World :=
  (create_plugin_admissioner emptyWorld "plugin" (.ok (.obj 5))
    (fun _ _ => .ok (.bool true))
    (fun _ => .ok .none)
    (fun _ _ _ => .ok .none)
    (fun _ => .ok .none)).2

/-- Counterexample to C9: a concrete admit trampoline call invokes the
external hook (one `callAdmitHook` event) while the trace contains no
acquisition and no release of the exclusive-execution guard at all — the
bridge did not acquire the guard before invoking the hook. -/
theorem C9_no_guard_counterexample :
    (pypluginAdmissionerAdmit guardProbeWorld 0 5).1 = .ok true ∧
    (pypluginAdmissionerAdmit guardProbeWorld 0 5).2.events.count
      Event.callAdmitHook = 1 ∧
    (pypluginAdmissionerAdmit guardProbeWorld 0 5).2.events.count
      Event.acquireGuard = 0 ∧
    (pypluginAdmissionerAdmit guardProbeWorld 0 5).2.events.count
      Event.releaseGuard = 0 := by
  refine ⟨rfl, rfl, rfl, rfl⟩

/-- C9 as amended: every trampoline (admit, clone, update, free) invokes
its external hook directly — the only event surrounding the hook call is
the hook call itself, with no acquisition or release of the external
execution context's exclusive-execution guard; holding that guard is left
entirely to the caller. -/
theorem C9_trampolines_no_guard (w : World) (a : Addr) (r : AdmRecord)
    (b : Addr) (pp : PluginParams) (req : Request) (sz : Nat)
    (fa : PyVal → Request → Except PyErr PyVal)
    (fc : PyVal → Except PyErr PyVal)
    (fu : PyVal → Request → Nat → Except PyErr PyVal)
    (ff : PyVal → Except PyErr PyVal)
    (h1 : lookupA w.records a = some r)
    (h2 : r.params = some b)
    (h3 : lookupA w.wrappers b = some pp)
    (ha : pp.admitHook = .fn fa)
    (hc : pp.cloneHook = .fn fc)
    (hu : pp.updateHook = .fn fu)
    (hf : pp.freeHook = .fn ff) :
    (pypluginAdmissionerAdmit w a req).2.events
      = w.events ++ [.callAdmitHook] ∧
    (pypluginAdmissionerClone w a).2.events
      = w.events ++ [.callCloneHook] ∧
    (pypluginAdmissionerUpdate w a req sz).2.events
      = w.events ++ [.callUpdateHook] ∧
    (pypluginAdmissionerFree w a).2.events
      = w.events ++ [.callFreeHook] ∧
    (pypluginAdmissionerAdmit w a req).2.events.count Event.acquireGuard
      = w.events.count Event.acquireGuard ∧
    (pypluginAdmissionerClone w a).2.events.count Event.acquireGuard
      = w.events.count Event.acquireGuard ∧
    (pypluginAdmissionerUpdate w a req sz).2.events.count Event.acquireGuard
      = w.events.count Event.acquireGuard ∧
    (pypluginAdmissionerFree w a).2.events.count Event.acquireGuard
      = w.events.count Event.acquireGuard ∧
    (pypluginAdmissionerAdmit w a req).2.events.count Event.releaseGuard
      = w.events.count Event.releaseGuard ∧
    (pypluginAdmissionerClone w a).2.events.count Event.releaseGuard
      = w.events.count Event.releaseGuard ∧
    (pypluginAdmissionerUpdate w a req sz).2.events.count Event.releaseGuard
      = w.events.count Event.releaseGuard ∧
    (pypluginAdmissionerFree w a).2.events.count Event.releaseGuard
      = w.events.count Event.releaseGuard := by
  refine ⟨?_, ?_, ?_, ?_, ?_, ?_, ?_, ?_, ?_, ?_, ?_, ?_⟩ <;>
    simp [pypluginAdmissionerAdmit, pypluginAdmissionerClone,
          pypluginAdmissionerUpdate, pypluginAdmissionerFree,
          h1, h2, h3, ha, hc, hu, hf, List.count_append]

/-- The record of the world used to witness the amended C9. -/
def guardWitnessRecord : AdmRecord :=
  ⟨some .pyplugin, some .pyplugin, some .pyplugin, some .pyplugin, some 1,
   List.replicate CACHE_NAME_LEN 0, none⟩

/-- The wrapper of the world used to witness the amended C9. -/
def guardWitnessParams : PluginParams :=
  ⟨.obj 5, .fn (fun _ _ => .ok (.bool true)), .fn (fun _ => .ok .none),
   .fn (fun _ _ _ => .ok .none), .fn (fun _ => .ok .none), "plugin"⟩

/-- The concrete world used to witness the amended C9. -/
def guardWitnessWorld : World :=
  ⟨[(0, guardWitnessRecord)], [(1, guardWitnessParams)], 2, []⟩

/-- Witness for the amended C9 at a concrete plugin policy: only the four
hook-call events are appended, never a guard event. -/
theorem C9_trampolines_no_guard_witness :
    (pypluginAdmissionerAdmit guardWitnessWorld 0 5).2.events
      = guardWitnessWorld.events ++ [.callAdmitHook] ∧
    (pypluginAdmissionerClone guardWitnessWorld 0).2.events
      = guardWitnessWorld.events ++ [.callCloneHook] ∧
    (pypluginAdmissionerUpdate guardWitnessWorld 0 5 1024).2.events
      = guardWitnessWorld.events ++ [.callUpdateHook] ∧
    (pypluginAdmissionerFree guardWitnessWorld 0).2.events
      = guardWitnessWorld.events ++ [.callFreeHook] ∧
    (pypluginAdmissionerAdmit guardWitnessWorld 0 5).2.events.count
        Event.acquireGuard
      = guardWitnessWorld.events.count Event.acquireGuard ∧
    (pypluginAdmissionerClone guardWitnessWorld 0).2.events.count
        Event.acquireGuard
      = guardWitnessWorld.events.count Event.acquireGuard ∧
    (pypluginAdmissionerUpdate guardWitnessWorld 0 5 1024).2.events.count
        Event.acquireGuard
      = guardWitnessWorld.events.count Event.acquireGuard ∧
    (pypluginAdmissionerFree guardWitnessWorld 0).2.events.count
        Event.acquireGuard
      = guardWitnessWorld.events.count Event.acquireGuard ∧
    (pypluginAdmissionerAdmit guardWitnessWorld 0 5).2.events.count
        Event.releaseGuard
      = guardWitnessWorld.events.count Event.releaseGuard ∧
    (pypluginAdmissionerClone guardWitnessWorld 0).2.events.count
        Event.releaseGuard
      = guardWitnessWorld.events.count Event.releaseGuard ∧
    (pypluginAdmissionerUpdate guardWitnessWorld 0 5 1024).2.events.count
        Event.releaseGuard
      = guardWitnessWorld.events.count Event.releaseGuard ∧
    (pypluginAdmissionerFree guardWitnessWorld 0).2.events.count
        Event.releaseGuard
      = guardWitnessWorld.events.count Event.releaseGuard :=
  C9_trampolines_no_guard guardWitnessWorld 0 guardWitnessRecord 1
    guardWitnessParams 5 1024
    (fun _ _ => .ok (.bool true)) (fun _ => .ok .none)
    (fun _ _ _ => .ok .none) (fun _ => .ok .none)
    rfl rfl rfl rfl rfl rfl rfl

/-! ## The `admissioner_name` property (fixed-capacity char buffer) -/

/-- The bytes a C consumer reads from `val.c_str()`: everything up to the
first NUL byte. -/
def cstr (l : List Nat) : List Nat := l.takeWhile (fun b => b != 0)

/-- `strncpy(dest, src, n)` into an `n`-byte buffer: copy at most `n` bytes
of the source C string, zero-padding when the source is shorter (when the
source fills the buffer, no terminator is written). -/
def strncpyBuf (n : Nat) (src : List Nat) : List Nat :=
  (cstr src).take n ++ List.replicate (n - ((cstr src).take n).length) 0

/-- The `admissioner_name` property setter:
`strncpy(self.admissioner_name, val.c_str(), CACHE_NAME_LEN)` followed by
`self.admissioner_name[CACHE_NAME_LEN - 1] = '\x00'`. -/
def set_admissioner_name (r : AdmRecord) (val : List Nat) : AdmRecord :=
  { r with admissioner_name :=
      (strncpyBuf CACHE_NAME_LEN val).set (CACHE_NAME_LEN - 1) 0 }

/-- The `admissioner_name` property getter:
`std::string(self.admissioner_name)` reads up to the first NUL. -/
def get_admissioner_name (r : AdmRecord) : List Nat :=
  cstr r.admissioner_name

/-- `takeWhile` walks through a prefix whose elements all satisfy the
predicate. -/
theorem takeWhile_append_of_all {p : Nat → Bool} :
    ∀ l1 l2 : List Nat, (∀ b ∈ l1, p b = true) →
      (l1 ++ l2).takeWhile p = l1 ++ l2.takeWhile p := by
  intro l1
  induction l1 with
  | nil => intro l2 _; simp
  | cons x t ih =>
    intro l2 h
    have hx : p x = true := h x (List.mem_cons_self x t)
    simp only [List.cons_append, List.takeWhile_cons, hx, if_true]
    rw [ih l2 (fun b hb => h b (List.mem_cons_of_mem x hb))]

/-- Every byte of a C-string read is nonzero. -/
theorem cstr_mem_ne_zero (l : List Nat) : ∀ b ∈ cstr l, (b != 0) = true := by
  intro b hb
  rw [cstr] at hb
  exact List.mem_takeWhile_imp (p := fun c => c != 0) hb

/-- What the stored buffer looks like after the setter: the first
`CACHE_NAME_LEN - 1` source bytes followed by zero padding out to exactly
`CACHE_NAME_LEN` bytes. -/
theorem set_admissioner_name_chars (r : AdmRecord) (val : List Nat) :
    (set_admissioner_name r val).admissioner_name
      = (cstr val).take 63
        ++ List.replicate (64 - ((cstr val).take 63).length) 0 := by
  simp only [set_admissioner_name, strncpyBuf, CACHE_NAME_LEN]
  by_cases h : 64 ≤ (cstr val).length
  · have hlen : ((cstr val).take 64).length = 64 := by
      simp [List.length_take, Nat.min_eq_left h]
    have hlen63 : ((cstr val).take 63).length = 63 := by
      simp only [List.length_take]
      omega
    rw [hlen, Nat.sub_self, List.replicate_zero, List.append_nil,
        List.set_eq_take_cons_drop 0 (by rw [hlen]; omega),
        List.drop_eq_nil_of_le (le_of_eq hlen), List.take_take, hlen63]
    norm_num
  · push_neg at h
    have hle : (cstr val).length ≤ 63 := by omega
    have htake64 : (cstr val).take 64 = cstr val :=
      List.take_of_length_le (by omega)
    have htake63 : (cstr val).take 63 = cstr val := List.take_of_length_le hle
    rw [htake64, htake63]
    have hlenbuf :
        (cstr val ++ List.replicate (64 - (cstr val).length) 0).length = 64 := by
      simp only [List.length_append, List.length_replicate]
      omega
    rw [List.set_eq_take_cons_drop 0 (by rw [hlenbuf]; omega),
        List.drop_eq_nil_of_le (le_of_eq hlenbuf)]
    have htk : (cstr val ++ List.replicate (64 - (cstr val).length) 0).take 63
        = cstr val ++ List.replicate (63 - (cstr val).length) 0 := by
      rw [List.take_append_eq_append_take, htake63, List.take_replicate]
      congr 2
      omega
    rw [htk, List.append_assoc]
    congr 1
    have h1 : 64 - (cstr val).length = (63 - (cstr val).length) + 1 := by omega
    rw [h1, List.replicate_succ' (63 - (cstr val).length) (0 : Nat)]

/-- C7: the name stored by the `admissioner_name` setter occupies exactly
the fixed `CACHE_NAME_LEN`-byte buffer, always carries a NUL terminator in
the final byte, and reading the property back yields the source C-string
truncated deterministically to the first `CACHE_NAME_LEN - 1` bytes
(trailing bytes dropped) — in particular the readable name never exceeds
the capacity. -/
theorem C7_name_truncation (r : AdmRecord) (val : List Nat) :
    (set_admissioner_name r val).admissioner_name.length = CACHE_NAME_LEN ∧
    (set_admissioner_name r val).admissioner_name.getD (CACHE_NAME_LEN - 1) 1
      = 0 ∧
    get_admissioner_name (set_admissioner_name r val)
      = (cstr val).take (CACHE_NAME_LEN - 1) ∧
    (get_admissioner_name (set_admissioner_name r val)).length
      ≤ CACHE_NAME_LEN - 1 := by
  have hchars := set_admissioner_name_chars r val
  have hulen : ((cstr val).take 63).length ≤ 63 := by
    simp only [List.length_take]
    omega
  have hread : get_admissioner_name (set_admissioner_name r val)
      = (cstr val).take 63 := by
    rw [get_admissioner_name, hchars]
    have hall : ∀ b ∈ (cstr val).take 63, (b != 0) = true := by
      intro b hb
      exact cstr_mem_ne_zero val b (List.mem_of_mem_take hb)
    rw [cstr, takeWhile_append_of_all _ _ hall]
    have h1 : 64 - ((cstr val).take 63).length
        = (64 - ((cstr val).take 63).length - 1) + 1 := by omega
    rw [h1, List.replicate_succ]
    simp
  simp only [CACHE_NAME_LEN]
  refine ⟨?_, ?_, ?_, ?_⟩
  · rw [hchars]
    simp only [List.length_append, List.length_replicate]
    omega
  · rw [hchars, List.getD_append_right _ _ _ _ (by omega),
        List.getD_eq_getElem?_getD, List.getElem?_replicate]
    have hlt : 63 - ((cstr val).take 63).length
        < 64 - ((cstr val).take 63).length := by omega
    rw [if_pos hlt]
    rfl
  · exact hread
  · rw [hread]
    simp only [List.length_take]
    omega

/-! ## Built-in factory bindings (`export_admissioner_creator`) -/

/-- The lambda registered by `export_admissioner_creator<fn>(m, name)` for
each built-in policy: an absent configuration (`None`) resolves to the null
pointer, i.e. the native creator is consulted with the null/default
configuration; if the creator returns no policy the binding throws
`std::runtime_error("Creator for " + name + " returned NULL")` instead of
returning an invalid record.  The native creator itself (bloom-filter,
probabilistic, size, size-probabilistic, adaptive-size) is an external
collaborator, passed in as a function. -/
def export_admissioner_creator_call (creator : Option String → Option Addr)
    (name : String) (params_obj : Option String) : Except CppExc Addr :=
  match creator params_obj with
  | Option.none =>
    .error ⟨.runtimeError, "Creator for " ++ name ++ " returned NULL"⟩
  | some adm => .ok adm

/-- The built-in factory names registered by `export_admissioner`. -/
def builtinCreatorNames : List String :=
  ["create_bloomfilter_admissioner", "create_prob_admissioner",
   "create_size_admissioner", "create_size_probabilistic_admissioner",
   "create_adaptsize_admissioner"]

/-- C8: for every built-in factory binding (the same template instantiated
for each of the five registered creators) and every native creator, an
absent configuration is handed to the creator as the null/default
configuration; when the creator returns no policy the call raises a
runtime error whose message names the policy (and which the translator
reports as a Python RuntimeError), and when the creator returns a policy
the call returns exactly that record. -/
theorem C8_factory_none_and_failure (creator : Option String → Option Addr)
    (name : String) (cfg : Option String) :
    (export_admissioner_creator_call creator name none
      = match creator none with
        | Option.none =>
          .error ⟨.runtimeError, "Creator for " ++ name ++ " returned NULL"⟩
        | some adm => .ok adm) ∧
    (creator cfg = none →
      export_admissioner_creator_call creator name cfg
        = .error ⟨.runtimeError, "Creator for " ++ name ++ " returned NULL"⟩) ∧
    (creator cfg = none →
      translateExc ⟨.runtimeError, "Creator for " ++ name ++ " returned NULL"⟩
        = some ⟨.runtimeErrorPy, "Creator for " ++ name ++ " returned NULL"⟩) ∧
    (∀ adm, creator cfg = some adm →
      export_admissioner_creator_call creator name cfg = .ok adm) := by
  refine ⟨rfl, ?_, ?_, ?_⟩
  · intro h
    simp [export_admissioner_creator_call, h]
  · intro _
    rfl
  · intro adm h
    simp [export_admissioner_creator_call, h]

/-- Witness for C8: a creator that fails on the null configuration, applied
at the first registered factory name. -/
theorem C8_factory_none_and_failure_witness :
    ((fun _ => (none : Option Addr)) (none : Option String) = none) ∧
    export_admissioner_creator_call (fun _ => none)
        "create_bloomfilter_admissioner" none
      = .error ⟨.runtimeError,
          "Creator for create_bloomfilter_admissioner returned NULL"⟩ :=
  ⟨rfl,
   (C8_factory_none_and_failure (fun _ => none)
      "create_bloomfilter_admissioner" none).2.1 rfl⟩

/-! ## The `init_params` property (owned C-string field) -/

/-- The slice of state the `init_params` property bindings touch: a C-string
heap (allocations made by `strdup`), the allocator cursor, and the record's
`init_params` pointer. -/
structure CStrState where
  heap : List (Addr × List Nat)
  next : Addr
  fieldAddr : Option Addr

/-- Well-formed C-string state: every live allocation sits below the
allocator cursor (so a fresh address is never already live), the record's
field, when set, points at a live allocation, and no address is allocated
twice.  All three hold of every state the bindings can produce; stated as a
hypothesis for the general theorem. -/
def CStrWF (s : CStrState) : Prop :=
  (∀ p ∈ s.heap, p.1 < s.next) ∧
  (∀ a, s.fieldAddr = some a → ∃ v, (a, v) ∈ s.heap) ∧
  (s.heap.map Prod.fst).Nodup

/-- The `init_params` getter:
`self.init_params ? std::string(self.init_params) : std::string{}` —
a null pointer reads as the empty string, a live pointer as the stored
bytes. -/
def get_init_params (s : CStrState) : List Nat :=
  match s.fieldAddr with
  | Option.none => []
  | some a => (lookupA s.heap a).getD []

/-- The `init_params` setter:
`if (self.init_params) free(self.init_params); self.init_params =
strdup(val.c_str());` — release the previously owned string (if any), then
store a freshly allocated copy of the value's C-string bytes. -/
def set_init_params (s : CStrState) (val : List Nat) : CStrState :=
  let h1 := match s.fieldAddr with
            | Option.none => s.heap
            | some a => removeA s.heap a
  ⟨(s.next, cstr val) :: h1, s.next + 1, some s.next⟩

/-- Looking up an address never held in the list fails. -/
theorem lookupA_not_mem {α : Type} (l : List (Addr × α)) (a : Addr)
    (h : ∀ p ∈ l, p.1 ≠ a) : lookupA l a = none := by
  induction l with
  | nil => rfl
  | cons x t ih =>
    have hx : x.1 ≠ a := h x (List.mem_cons_self x t)
    have hrest : ∀ p ∈ t, p.1 ≠ a := fun p hp => h p (List.mem_cons_of_mem x hp)
    cases x with
    | mk a' v =>
      simp only [lookupA, if_neg hx]
      exact ih hrest

/-- When no address occurs twice, removing the entry at an address makes
that address dead: `free(p)` really retires the allocation. -/
theorem lookupA_removeA_self {α : Type} (l : List (Addr × α)) (a : Addr)
    (h : (l.map Prod.fst).Nodup) : lookupA (removeA l a) a = none := by
  induction l with
  | nil => rfl
  | cons x t ih =>
    cases x with
    | mk a' v =>
      simp only [List.map_cons, List.nodup_cons] at h
      by_cases hx : a' = a
      · subst hx
        simp only [removeA, if_pos rfl]
        apply lookupA_not_mem
        intro p hp hpa
        exact h.1 (hpa ▸ List.mem_map_of_mem Prod.fst hp)
      · simp only [removeA, if_neg hx, lookupA, if_neg hx]
        exact ih h.2

/-- C10: reading `init_params` while unset yields the empty string (not an
error); assigning first releases the previously owned allocation (its
address is dead in the heap afterwards) and then stores an independently
allocated copy of the value's C-string bytes at a fresh address (in
particular, for a value with no NUL byte, exactly the value's bytes); the
field points at that fresh allocation, the read-back is the stored copy,
and the allocation is fresh: distinct from the old address and not live
before the call. -/
theorem C10_init_params_default_and_copy (s : CStrState) (val : List Nat)
    (hwf : CStrWF s) :
    (s.fieldAddr = none → get_init_params s = []) ∧
    (set_init_params s val).fieldAddr = some s.next ∧
    lookupA (set_init_params s val).heap s.next = some (cstr val) ∧
    get_init_params (set_init_params s val) = cstr val ∧
    ((∀ b ∈ val, b ≠ 0) → get_init_params (set_init_params s val) = val) ∧
    (∀ a, s.fieldAddr = some a →
      lookupA (set_init_params s val).heap a = none) ∧
    (∀ a, s.fieldAddr = some a → a ≠ s.next) ∧
    lookupA s.heap s.next = none := by
  have hfield : (set_init_params s val).fieldAddr = some s.next := rfl
  have hlook : lookupA (set_init_params s val).heap s.next = some (cstr val) := by
    simp [set_init_params, lookupA]
  have hne : ∀ a, s.fieldAddr = some a → a ≠ s.next := by
    intro a ha hcontra
    rcases hwf.2.1 a ha with ⟨v, hv⟩
    exact absurd hcontra (Nat.ne_of_lt (hwf.1 (a, v) hv))
  refine ⟨?_, hfield, hlook, ?_, ?_, ?_, hne, ?_⟩
  · intro h
    simp [get_init_params, h]
  · simp [get_init_params, hfield, hlook]
  · intro hnz
    have : cstr val = val := by
      rw [cstr, List.takeWhile_eq_self_iff.mpr]
      intro x hx
      simpa using hnz x hx
    simp [get_init_params, hfield, hlook, this]
  · intro a ha
    have hna : s.next ≠ a := fun hc => (hne a ha) hc.symm
    simp only [set_init_params, ha, lookupA, if_neg hna]
    exact lookupA_removeA_self s.heap a hwf.2.2
  · apply lookupA_not_mem
    intro p hp
    exact Nat.ne_of_lt (hwf.1 p hp)

/-- Witness for C10 at two concrete states: a fresh record (unset field
reads as empty) and a record that already owns a string at address 0 (the
assignment frees that allocation — address 0 is dead afterwards — and
stores the copy at the fresh address 1). -/
theorem C10_init_params_default_and_copy_witness :
    get_init_params ⟨[], 0, none⟩ = [] ∧
    (set_init_params ⟨[(0, [104, 105])], 1, some 0⟩ [97, 98]).fieldAddr
      = some 1 ∧
    lookupA (set_init_params ⟨[(0, [104, 105])], 1, some 0⟩ [97, 98]).heap 1
      = some (cstr [97, 98]) ∧
    get_init_params (set_init_params ⟨[(0, [104, 105])], 1, some 0⟩ [97, 98])
      = [97, 98] ∧
    lookupA (set_init_params ⟨[(0, [104, 105])], 1, some 0⟩ [97, 98]).heap 0
      = none ∧
    (0 : Addr) ≠ 1 ∧
    lookupA (⟨[(0, [104, 105])], 1, some 0⟩ : CStrState).heap 1 = none := by
  have hwf0 : CStrWF ⟨[], 0, none⟩ := by
    refine ⟨?_, ?_, ?_⟩
    · intro p hp
      simp at hp
    · intro a ha
      simp at ha
    · simp
  have hwf : CStrWF ⟨[(0, [104, 105])], 1, some 0⟩ := by
    refine ⟨?_, ?_, ?_⟩
    · intro p hp
      simp only [List.mem_singleton] at hp
      subst hp
      decide
    · intro a ha
      simp at ha
      exact ⟨[104, 105], by simp [ha]⟩
    · simp
  have T0 := C10_init_params_default_and_copy ⟨[], 0, none⟩ [] hwf0
  have T := C10_init_params_default_and_copy ⟨[(0, [104, 105])], 1, some 0⟩
    [97, 98] hwf
  exact ⟨T0.1 rfl, T.2.1, T.2.2.1, T.2.2.2.2.1 (by decide),
    T.2.2.2.2.2.1 0 rfl, T.2.2.2.2.2.2.1 0 rfl, T.2.2.2.2.2.2.2⟩

end LibCacheSim
